import Mathlib

/-!
Verification of the Fax native bridge (`src/faxc/Compiler/Proto/ffi.cpp`)
and the Fax allocation runtime (`src/faxc/crates/faxc-runtime/src/runtime.c`)
against their natural-language specification.

The C/C++ code is shallowly embedded: each `extern "C"` function becomes a
Lean function over an explicit state.  Null pointers are modelled with
`Option` (a `none` handle/argument is a null pointer); an out-parameter
pointer is modelled as a `Bool` flag saying whether the pointer is non-null,
and the value the function writes through it is returned as an
`Option`-valued component of the result (`none` when the pointer was null
and nothing was written).
-/

namespace Fax

/-- Modelled from the spec: `fax::compiler::TokenStream` is only
forward-declared in `ffi.cpp` (the protobuf class is generated elsewhere);
the spec describes the decoded token stream as an ordered sequence of Token
records with kind/text/line/column fields.  No operation in `ffi.cpp` ever
constructs or inspects one, so the payload is inert here. -/
structure Token where
  kind : Int
  text : String
  line : Int
  col : Int
deriving Repr, DecidableEq

/-- Modelled from the spec: the decoded token stream (see `Token`). -/
def TokenStream := List Token
deriving Repr, DecidableEq

/-- Modelled from the spec: `fax::compiler::Module` is only forward-declared
in `ffi.cpp`; the spec treats it as an opaque structured AST value.  No
operation in `ffi.cpp` ever constructs or inspects one. -/
structure ModuleMsg where
  payload : String
deriving Repr, DecidableEq

/-- `struct ProtoContextData` from `ffi.cpp` lines 17-25: the per-context
state of the serialization bridge.  `std::string error` and
`std::string temp_string` become `String`, `std::vector(uint8_t) buffer`
becomes `List UInt8`, and the two `std::unique_ptr` members (null by
default) become `Option`s. -/
structure ProtoContextData where
  error : String
  buffer : List UInt8
  temp_string : String
  token_stream : Option TokenStream
  module : Option ModuleMsg
deriving Repr, DecidableEq

/-- `fax_proto_context_new` (`ffi.cpp` lines 29-31): `new ProtoContextData()`
value-initializes every member: empty strings, empty vector, null
unique_ptrs. -/
def fax_proto_context_new : ProtoContextData :=
  { error := ""
    buffer := []
    temp_string := ""
    token_stream := none
    module := none }

/-- A `ProtoContext` handle as passed across the C boundary: either null
(`none`) or a pointer to context data (`some`). -/
def ProtoContext := Option ProtoContextData
deriving Repr, DecidableEq

/-- `fax_proto_get_error` (`ffi.cpp` lines 37-44): returns `nullptr` when
the handle is null or the recorded error is empty; otherwise copies the
error into `temp_string` and returns a pointer to it.  Result: the returned
string (or `none` for `nullptr`) together with the updated context. -/
def fax_proto_get_error (ctx : ProtoContext) : Option String × ProtoContext :=
  match ctx with
  | none => (none, none)
  | some data =>
    if data.error = "" then
      (none, some data)
    else
      (some data.error, some { data with temp_string := data.error })

/-- Result of `fax_serialize_tokens` / `fax_serialize_module`: the returned
buffer pointer (`none` = `nullptr`), the value written through `out_size`
(`none` when the pointer was null and nothing was written), and the context
state after the call. -/
structure SerializeResult where
  ret : Option (List UInt8)
  out_size : Option Nat
  ctx : ProtoContext
deriving Repr, DecidableEq

/-- `fax_serialize_tokens` (`ffi.cpp` lines 47-59): returns `nullptr`
immediately when the context, `source` or `out_size` is null; otherwise the
stub sets the context error to a "not yet implemented" message, clears the
buffer, writes 0 through `out_size` and returns `nullptr`. -/
def fax_serialize_tokens (ctx : ProtoContext) (source : Option String)
    (out_size_ptr : Bool) : SerializeResult :=
  match ctx, source with
  | some data, some _ =>
    if out_size_ptr then
      { ret := none
        out_size := some 0
        ctx := some { data with
          error := "Token serialization not yet implemented with protobuf"
          buffer := [] } }
    else
      { ret := none, out_size := none, ctx := some data }
  | _, _ => { ret := none, out_size := none, ctx := ctx }

/-- `fax_deserialize_tokens` (`ffi.cpp` lines 67-76): returns `-1` when the
context or byte pointer is null or the size is zero; otherwise the stub
records a "not yet implemented" error and still returns `-1`.  The decoded
token stream is never touched. -/
def fax_deserialize_tokens (ctx : ProtoContext) (bytes : Option (List UInt8))
    (size : Nat) : Int × ProtoContext :=
  match ctx with
  | none => (-1, none)
  | some cd =>
    if bytes = none ∨ size = 0 then
      (-1, some cd)
    else
      (-1, some { cd with error := "Token deserialization not yet implemented" })

/-- `fax_get_token_count` (`ffi.cpp` lines 78-84): returns 0 when the handle
is null or no token stream is stored; the stored-stream branch also returns
0 (the source's `return 0; // TODO: Return actual count`). -/
def fax_get_token_count (ctx : ProtoContext) : Int :=
  match ctx with
  | none => 0
  | some data =>
    match data.token_stream with
    | none => 0
    | some _ => 0

/-- The values `fax_get_token_info` writes through its four out-parameters;
a component is `none` when the corresponding pointer was null. -/
structure TokenInfoOut where
  type_out : Option Int
  text_out : Option String
  line_out : Option Int
  col_out : Option Int
deriving Repr, DecidableEq

/-- `fax_get_token_info` (`ffi.cpp` lines 86-98): ignores the context and
index entirely and writes the sentinel defaults (kind 0, empty text, line 0,
column 0) through every non-null out-parameter.  The context is never read
or written. -/
def fax_get_token_info (ctx : ProtoContext) (index : Int)
    (typePtr textPtr linePtr colPtr : Bool) : TokenInfoOut :=
  { type_out := if typePtr then some 0 else none
    text_out := if textPtr then some "" else none
    line_out := if linePtr then some 0 else none
    col_out := if colPtr then some 0 else none }

/-- `fax_serialize_module` (`ffi.cpp` lines 101-111): returns `nullptr` when
the context, `ast_json` or `out_size` is null; otherwise records a "not yet
implemented" error, writes 0 through `out_size` and returns `nullptr`
(unlike `fax_serialize_tokens` it does not clear the buffer). -/
def fax_serialize_module (ctx : ProtoContext) (ast_json : Option String)
    (out_size_ptr : Bool) : SerializeResult :=
  match ctx, ast_json with
  | some data, some _ =>
    if out_size_ptr then
      { ret := none
        out_size := some 0
        ctx := some { data with
          error := "Module serialization not yet implemented" } }
    else
      { ret := none, out_size := none, ctx := some data }
  | _, _ => { ret := none, out_size := none, ctx := ctx }

/-- `fax_deserialize_module` (`ffi.cpp` lines 113-122): returns `-1` when
the context, byte pointer or `out_json` pointer is null or size is zero;
otherwise records a "not yet implemented" error and still returns `-1`,
never writing through `out_json`. -/
def fax_deserialize_module (ctx : ProtoContext) (bytes : Option (List UInt8))
    (size : Nat) (out_json_ptr : Bool) : Int × ProtoContext :=
  match ctx with
  | none => (-1, none)
  | some cd =>
    if bytes = none ∨ size = 0 ∨ out_json_ptr = false then
      (-1, some cd)
    else
      (-1, some { cd with error := "Module deserialization not yet implemented" })

/-- `fax_proto_version` (`ffi.cpp` lines 128-130). -/
def fax_proto_version : String := "Fax Protobuf FFI v0.0.3"

/-- One call on a bridge context, used to quantify over every sequence of
operations a caller can perform on a context. -/
inductive ProtoOp where
  | getError
  | serializeTokens (source : Option String) (out_size_ptr : Bool)
  | deserializeTokens (bytes : Option (List UInt8)) (size : Nat)
  | getTokenCount
  | getTokenInfo (index : Int) (typePtr textPtr linePtr colPtr : Bool)
  | serializeModule (ast_json : Option String) (out_size_ptr : Bool)
  | deserializeModule (bytes : Option (List UInt8)) (size : Nat) (out_json_ptr : Bool)
deriving Repr, DecidableEq

/-- The context state after performing one operation. -/
def applyOp (ctx : ProtoContext) : ProtoOp → ProtoContext
  | .getError => (fax_proto_get_error ctx).2
  | .serializeTokens s o => (fax_serialize_tokens ctx s o).ctx
  | .deserializeTokens b n => (fax_deserialize_tokens ctx b n).2
  | .getTokenCount => ctx
  | .getTokenInfo _ _ _ _ _ => ctx
  | .serializeModule s o => (fax_serialize_module ctx s o).ctx
  | .deserializeModule b n o => (fax_deserialize_module ctx b n o).2

/-- The context state after a sequence of operations. -/
def runOps (ctx : ProtoContext) (ops : List ProtoOp) : ProtoContext :=
  ops.foldl applyOp ctx

/-- The error string recorded in a context (empty for a null handle). -/
def ctxError : ProtoContext → String
  | none => ""
  | some cd => cd.error

/-- The decoded token stream stored in a context (`none` for a null
handle). -/
def ctxTokenStream : ProtoContext → Option TokenStream
  | none => none
  | some cd => cd.token_stream

end Fax

namespace Fax.GC

/-- The process-wide allocation-runtime state (`runtime.c` line 17):
`static int gc_initialized = 0` is its only mutable state; there is no
stored root set and no generation metadata. -/
structure GCState where
  gc_initialized : Bool
deriving Repr, DecidableEq

/-- The state at program start (`gc_initialized = 0`). -/
def initialGCState : GCState := { gc_initialized := false }

/-- `fax_gc_init` (`runtime.c` lines 20-29): returns 1 immediately when
already initialized, otherwise sets the flag and returns 1. -/
def fax_gc_init (s : GCState) : Int × GCState :=
  if s.gc_initialized then (1, s)
  else (1, { s with gc_initialized := true })

/-- Iterating `fax_gc_init` N times (state only). -/
def gcInitIter : Nat → GCState → GCState
  | 0, s => s
  | n + 1, s => gcInitIter n (fax_gc_init s).2

/-- `fax_gc_alloc` (`runtime.c` lines 32-44): lazily initializes, then calls
`malloc(size)`; on `NULL` it prints a diagnostic and returns `NULL`.  The
host `malloc` is modelled as an oracle `malloc : Nat → Option Nat` mapping a
size to an address or `none` on exhaustion. -/
def fax_gc_alloc (malloc : Nat → Option Nat) (size : Nat) (s : GCState) :
    Option Nat × GCState :=
  let s1 := if s.gc_initialized then s else (fax_gc_init s).2
  (malloc size, s1)

/-- `fax_gc_alloc_zeroed` (`runtime.c` lines 47-59): identical control flow
to `fax_gc_alloc` with `calloc` as the oracle. -/
def fax_gc_alloc_zeroed (calloc : Nat → Option Nat) (size : Nat) (s : GCState) :
    Option Nat × GCState :=
  let s1 := if s.gc_initialized then s else (fax_gc_init s).2
  (calloc size, s1)

/-- `fax_gc_register_root` (`runtime.c` lines 62-65): a stub that returns 1
and records nothing. -/
def fax_gc_register_root (s : GCState) (ptr : Nat) : Int × GCState := (1, s)

/-- `fax_gc_unregister_root` (`runtime.c` lines 68-71): a stub that returns
1 and records nothing. -/
def fax_gc_unregister_root (s : GCState) (ptr : Nat) : Int × GCState := (1, s)

/-- `fax_gc_collect` (`runtime.c` lines 74-76): a no-op placeholder. -/
def fax_gc_collect (s : GCState) : GCState := s

/-- `fax_gc_collect_young` (`runtime.c` lines 79-81): a no-op placeholder. -/
def fax_gc_collect_young (s : GCState) : GCState := s

/-- `fax_gc_shutdown` (`runtime.c` lines 84-87): resets the initialization
flag. -/
def fax_gc_shutdown (s : GCState) : GCState := { s with gc_initialized := false }

/-- Whether an address is recorded as a GC root in the runtime state.
`runtime.c` stores no root set — its whole mutable state is the single flag
`gc_initialized` — so no address is ever recorded as registered. -/
def rootRegistered (s : GCState) (a : Nat) : Bool := false

end Fax.GC

namespace Fax

/-- C1: for every context and non-null source and non-null out-size
pointer, `fax_serialize_tokens` (the codec being a stub, hence unavailable)
returns a null buffer, writes 0 through `out_size`, and afterwards
`fax_proto_get_error` on that context returns the non-empty
"not yet implemented" message. -/
theorem serialize_tokens_unavailable (cd : ProtoContextData) (src : String) :
    (fax_serialize_tokens (some cd) (some src) true).ret = none ∧
    (fax_serialize_tokens (some cd) (some src) true).out_size = some 0 ∧
    (fax_proto_get_error (fax_serialize_tokens (some cd) (some src) true).ctx).1 =
      some "Token serialization not yet implemented with protobuf" ∧
    ("Token serialization not yet implemented with protobuf" : String) ≠ "" := by
  refine ⟨rfl, rfl, ?_, by decide⟩
  simp [fax_serialize_tokens, fax_proto_get_error]

/-- C2 counterexample: on a fresh (valid) context, calling
`fax_serialize_tokens` with a null `source` returns a null buffer (failure),
but `fax_proto_get_error` on the context afterwards still returns absent —
the InvalidArgument condition is not reported via the error accessor,
contradicting the claim. -/
theorem invalid_argument_not_reported :
    (fax_serialize_tokens (some fax_proto_context_new) none true).ret = none ∧
    (fax_proto_get_error
      (fax_serialize_tokens (some fax_proto_context_new) none true).ctx).1 = none := by
  constructor <;> rfl

/-- C2 amended: each bridge operation called with a null required pointer or
zero length on a valid context returns a failure status / null result and
leaves the context completely unchanged — in particular the error string is
not updated, so `fax_proto_get_error` reports whatever was recorded before
the call (absent on a fresh context), not the InvalidArgument condition. -/
theorem invalid_argument_rejected_silently (cd : ProtoContextData)
    (src : Option String) (osp : Bool) (bytes : Option (List UInt8))
    (size : Nat) (ojp : Bool) :
    (src = none ∨ osp = false →
      (fax_serialize_tokens (some cd) src osp).ret = none ∧
      (fax_serialize_tokens (some cd) src osp).ctx = some cd) ∧
    (bytes = none ∨ size = 0 →
      (fax_deserialize_tokens (some cd) bytes size).1 = -1 ∧
      (fax_deserialize_tokens (some cd) bytes size).2 = some cd) ∧
    (src = none ∨ osp = false →
      (fax_serialize_module (some cd) src osp).ret = none ∧
      (fax_serialize_module (some cd) src osp).ctx = some cd) ∧
    (bytes = none ∨ size = 0 ∨ ojp = false →
      (fax_deserialize_module (some cd) bytes size ojp).1 = -1 ∧
      (fax_deserialize_module (some cd) bytes size ojp).2 = some cd) := by
  refine ⟨?_, ?_, ?_, ?_⟩
  · rintro (h | h) <;> subst h
    · exact ⟨rfl, rfl⟩
    · cases src <;> simp [fax_serialize_tokens]
  · intro h
    constructor <;> simp [fax_deserialize_tokens, h]
  · rintro (h | h) <;> subst h
    · exact ⟨rfl, rfl⟩
    · cases src <;> simp [fax_serialize_module]
  · intro h
    constructor <;> simp [fax_deserialize_module, h]

/-- C2 amended, witness: concrete instantiation with a fresh context, null
source, null byte buffer and zero size, discharging every hypothesis. -/
theorem invalid_argument_rejected_silently_witness :
    ((none : Option String) = none ∨ true = false →
      (fax_serialize_tokens (some fax_proto_context_new) none true).ret = none ∧
      (fax_serialize_tokens (some fax_proto_context_new) none true).ctx =
        some fax_proto_context_new) ∧
    ((none : Option (List UInt8)) = none ∨ (0 : Nat) = 0 →
      (fax_deserialize_tokens (some fax_proto_context_new) none 0).1 = -1 ∧
      (fax_deserialize_tokens (some fax_proto_context_new) none 0).2 =
        some fax_proto_context_new) ∧
    ((none : Option String) = none ∨ true = false →
      (fax_serialize_module (some fax_proto_context_new) none true).ret = none ∧
      (fax_serialize_module (some fax_proto_context_new) none true).ctx =
        some fax_proto_context_new) ∧
    ((none : Option (List UInt8)) = none ∨ (0 : Nat) = 0 ∨ true = false →
      (fax_deserialize_module (some fax_proto_context_new) none 0 true).1 = -1 ∧
      (fax_deserialize_module (some fax_proto_context_new) none 0 true).2 =
        some fax_proto_context_new) :=
  invalid_argument_rejected_silently fax_proto_context_new none true none 0 true

end Fax

namespace Fax

/-- C3: for every context and every index at least the token count (the
count being 0, this is every non-negative index, in particular whenever no
token stream has been decoded), `fax_get_token_info` writes the empty-token
sentinel — kind 0, text "", line 0, column 0 — through every non-null
out-parameter combination, and never fails. -/
theorem token_info_sentinel (ctx : ProtoContext) (i : Int)
    (h : fax_get_token_count ctx ≤ i) (tp tx ln cl : Bool) :
    (tp = true → (fax_get_token_info ctx i tp tx ln cl).type_out = some 0) ∧
    (tx = true → (fax_get_token_info ctx i tp tx ln cl).text_out = some "") ∧
    (ln = true → (fax_get_token_info ctx i tp tx ln cl).line_out = some 0) ∧
    (cl = true → (fax_get_token_info ctx i tp tx ln cl).col_out = some 0) := by
  refine ⟨?_, ?_, ?_, ?_⟩ <;> intro hflag <;> subst hflag <;> rfl

/-- C3 witness: concrete instantiation on a fresh context at index 0 (which
is `>=` the token count 0) with all four out-pointers non-null. -/
theorem token_info_sentinel_witness :
    (true = true →
      (fax_get_token_info (some fax_proto_context_new) 0 true true true true).type_out
        = some 0) ∧
    (true = true →
      (fax_get_token_info (some fax_proto_context_new) 0 true true true true).text_out
        = some "") ∧
    (true = true →
      (fax_get_token_info (some fax_proto_context_new) 0 true true true true).line_out
        = some 0) ∧
    (true = true →
      (fax_get_token_info (some fax_proto_context_new) 0 true true true true).col_out
        = some 0) :=
  token_info_sentinel (some fax_proto_context_new) 0 (by decide) true true true true

/-- C7: `fax_deserialize_tokens` on a valid context returns the failure
status `-1` when the byte buffer is null or the length is zero — and in
fact on every call (the stub never succeeds) — and on every failure the
stored decoded token stream is left exactly unchanged. -/
theorem deserialize_tokens_failure_preserves_stream (cd : ProtoContextData)
    (bytes : Option (List UInt8)) (size : Nat) :
    (bytes = none ∨ size = 0 →
      (fax_deserialize_tokens (some cd) bytes size).1 = -1) ∧
    (fax_deserialize_tokens (some cd) bytes size).1 = -1 ∧
    ctxTokenStream (fax_deserialize_tokens (some cd) bytes size).2
      = cd.token_stream := by
  refine ⟨fun _ => ?_, ?_, ?_⟩
  · simp [fax_deserialize_tokens]
    split <;> rfl
  · simp [fax_deserialize_tokens]
    split <;> rfl
  · simp only [fax_deserialize_tokens]
    split <;> rfl

/-- C7 witness: concrete instantiation on a fresh context with a null byte
buffer and zero length. -/
theorem deserialize_tokens_failure_preserves_stream_witness :
    ((none : Option (List UInt8)) = none ∨ (0 : Nat) = 0 →
      (fax_deserialize_tokens (some fax_proto_context_new) none 0).1 = -1) ∧
    (fax_deserialize_tokens (some fax_proto_context_new) none 0).1 = -1 ∧
    ctxTokenStream (fax_deserialize_tokens (some fax_proto_context_new) none 0).2
      = fax_proto_context_new.token_stream :=
  deserialize_tokens_failure_preserves_stream fax_proto_context_new none 0

/-- C8: `fax_proto_context_new` yields a context in the initial state:
`fax_proto_get_error` on it returns absent, its encoded buffer is empty,
and no decoded token stream or module is stored. -/
theorem context_new_fresh :
    (fax_proto_get_error (some fax_proto_context_new)).1 = none ∧
    fax_proto_context_new.error = "" ∧
    fax_proto_context_new.buffer = [] ∧
    fax_proto_context_new.token_stream = none ∧
    fax_proto_context_new.module = none := by
  refine ⟨?_, rfl, rfl, rfl, rfl⟩
  simp [fax_proto_get_error, fax_proto_context_new]

/-- C9: every context-taking bridge operation tolerates a null context
handle (`none` here, so the null handle is by construction never
dereferenced): `fax_proto_get_error` returns absent, the two serializers
return null, the two deserializers return `-1`, `fax_get_token_count`
returns 0, and `fax_get_token_info` writes the sentinel out-parameters. -/
theorem null_context_tolerated (src : Option String) (osp : Bool)
    (bytes : Option (List UInt8)) (size : Nat) (ojp : Bool) (i : Int) :
    (fax_proto_get_error none).1 = none ∧
    (fax_serialize_tokens none src osp).ret = none ∧
    (fax_serialize_module none src osp).ret = none ∧
    (fax_deserialize_tokens none bytes size).1 = -1 ∧
    (fax_deserialize_module none bytes size ojp).1 = -1 ∧
    fax_get_token_count none = 0 ∧
    fax_get_token_info none i true true true true
      = ⟨some 0, some "", some 0, some 0⟩ := by
  refine ⟨rfl, ?_, ?_, rfl, rfl, rfl, rfl⟩
  · cases src <;> rfl
  · cases src <;> rfl

end Fax

namespace Fax

/-- Helper invariant: one bridge operation on a valid context yields a valid
context, never changes the stored decoded token stream, and never erases a
non-empty error string (every error the stubs write is non-empty). -/
theorem applyOp_some (cd : ProtoContextData) (op : ProtoOp) :
    ∃ cd', applyOp (some cd) op = some cd' ∧
      cd'.token_stream = cd.token_stream ∧
      (cd.error ≠ "" → cd'.error ≠ "") := by
  cases op with
  | getError =>
    by_cases h : cd.error = ""
    · refine ⟨cd, ?_, rfl, fun hne => hne⟩
      simp [applyOp, fax_proto_get_error, h]
    · refine ⟨{ cd with temp_string := cd.error }, ?_, rfl, fun hne => hne⟩
      simp [applyOp, fax_proto_get_error, h]
  | serializeTokens s o =>
    cases s with
    | none => exact ⟨cd, rfl, rfl, fun h => h⟩
    | some v =>
      cases o with
      | false => exact ⟨cd, rfl, rfl, fun h => h⟩
      | true =>
        refine ⟨_, rfl, rfl, fun _ => ?_⟩
        simp [fax_serialize_tokens]
  | deserializeTokens b n =>
    simp only [applyOp, fax_deserialize_tokens]
    split
    · exact ⟨cd, rfl, rfl, fun h => h⟩
    · exact ⟨_, rfl, rfl, fun _ => by simp⟩
  | getTokenCount => exact ⟨cd, rfl, rfl, fun h => h⟩
  | getTokenInfo i tp tx ln cl => exact ⟨cd, rfl, rfl, fun h => h⟩
  | serializeModule s o =>
    cases s with
    | none => exact ⟨cd, rfl, rfl, fun h => h⟩
    | some v =>
      cases o with
      | false => exact ⟨cd, rfl, rfl, fun h => h⟩
      | true =>
        refine ⟨_, rfl, rfl, fun _ => ?_⟩
        simp [fax_serialize_module]
  | deserializeModule b n o =>
    simp only [applyOp, fax_deserialize_module]
    split
    · exact ⟨cd, rfl, rfl, fun h => h⟩
    · exact ⟨_, rfl, rfl, fun _ => by simp⟩

/-- Helper invariant: a sequence of bridge operations starting from a valid
context stays valid, preserves the stored decoded token stream, and never
erases a non-empty error string. -/
theorem runOps_some (cd : ProtoContextData) (ops : List ProtoOp) :
    ∃ cd', runOps (some cd) ops = some cd' ∧
      cd'.token_stream = cd.token_stream ∧
      (cd.error ≠ "" → cd'.error ≠ "") := by
  induction ops generalizing cd with
  | nil => exact ⟨cd, rfl, rfl, fun h => h⟩
  | cons op rest ih =>
    obtain ⟨cd1, h1, ht1, he1⟩ := applyOp_some cd op
    obtain ⟨cd2, h2, ht2, he2⟩ := ih cd1
    refine ⟨cd2, ?_, ht2.trans ht1, fun h => he2 (he1 h)⟩
    simp only [runOps, List.foldl, h1]
    exact h2

/-- C4: along every sequence of bridge operations on a freshly created
context, no token decode ever succeeds (`fax_deserialize_tokens` returns the
failure status `-1` on every context, not the success status 0), and
`fax_get_token_count` on the reached context returns 0 — the defined result
for "no successful decode", making the "count of the most recently decoded
stream" clause hold vacuously. -/
theorem token_count_zero_without_decode (ops : List ProtoOp) :
    fax_get_token_count (runOps (some fax_proto_context_new) ops) = 0 ∧
    ∀ (ctx : ProtoContext) (bytes : Option (List UInt8)) (size : Nat),
      (fax_deserialize_tokens ctx bytes size).1 = -1 := by
  constructor
  · obtain ⟨cd', h, ht, _⟩ := runOps_some fax_proto_context_new ops
    rw [h]
    show fax_get_token_count (some cd') = 0
    simp only [fax_get_token_count]
    cases cd'.token_stream <;> rfl
  · intro ctx bytes size
    cases ctx with
    | none => rfl
    | some cd =>
      simp only [fax_deserialize_tokens]
      split <;> rfl

/-- C10: the recorded error string is never cleared: once a context holds a
non-empty error, every sequence of subsequent bridge operations (successful
accessors and repeated `fax_proto_get_error` calls included) leaves it
non-empty — each failing stub overwrites it with another non-empty message
and no operation empties it. -/
theorem error_never_cleared (cd : ProtoContextData) (ops : List ProtoOp)
    (h : cd.error ≠ "") :
    ctxError (runOps (some cd) ops) ≠ "" := by
  obtain ⟨cd', hrun, _, he⟩ := runOps_some cd ops
  rw [hrun]
  exact he h

/-- C10 witness: a context whose error is "boom" keeps a non-empty error
after a token-count query, a token-info query, an error query and a failing
serialize call. -/
theorem error_never_cleared_witness :
    ctxError (runOps (some { fax_proto_context_new with error := "boom" })
      [ProtoOp.getTokenCount, ProtoOp.getError,
       ProtoOp.getTokenInfo 0 true true true true,
       ProtoOp.serializeTokens (some "x") true]) ≠ "" :=
  error_never_cleared { fax_proto_context_new with error := "boom" }
    [ProtoOp.getTokenCount, ProtoOp.getError,
     ProtoOp.getTokenInfo 0 true true true true,
     ProtoOp.serializeTokens (some "x") true] (by decide)

end Fax

namespace Fax.GC

/-- Helper: `fax_gc_init` always leaves the runtime in the initialized
state (whether or not it was initialized before). -/
theorem fax_gc_init_state (s : GCState) :
    (fax_gc_init s).2 = { gc_initialized := true } := by
  cases s with
  | mk flag => cases flag <;> rfl

/-- Helper: at least one iteration of `fax_gc_init` always reaches the
initialized state. -/
theorem gcInitIter_succ (n : Nat) (s : GCState) :
    gcInitIter (n + 1) s = { gc_initialized := true } := by
  induction n generalizing s with
  | zero => simpa [gcInitIter] using fax_gc_init_state s
  | succ m ih => simpa [gcInitIter] using ih (fax_gc_init s).2

/-- C5 counterexample: `fax_gc_register_root` does not mark the address as
a GC root — the runtime state stores no root set at all, so after
registering address 42 from the initial state, 42 is still not recorded as
registered, contradicting "marks address a as a GC root". -/
theorem register_root_records_nothing :
    rootRegistered (fax_gc_register_root initialGCState 42).2 42 = false := rfl

/-- C5 amended: `fax_gc_register_root` and `fax_gc_unregister_root` accept
any address, return success 1, and leave the runtime state unchanged — no
root set is maintained, so duplicate registration is trivially tolerated and
the sequence register(a); register(a); unregister(a) leaves `a` not
registered as a root. -/
theorem root_ops_are_noops (s : GCState) (a : Nat) :
    (fax_gc_register_root s a).1 = 1 ∧
    (fax_gc_register_root s a).2 = s ∧
    (fax_gc_unregister_root s a).1 = 1 ∧
    (fax_gc_unregister_root
        (fax_gc_register_root (fax_gc_register_root s a).2 a).2 a).2 = s ∧
    rootRegistered
      (fax_gc_unregister_root
        (fax_gc_register_root (fax_gc_register_root s a).2 a).2 a).2 a
      = false :=
  ⟨rfl, rfl, rfl, rfl, rfl⟩

/-- C6: `fax_gc_init` is idempotent — for every N >= 1, N calls leave the
runtime in exactly the state one call leaves it in, and every call returns
1 — and the allocator never wedges: after `fax_gc_shutdown`, a
`fax_gc_alloc` call re-initializes the runtime and the allocation succeeds
(returns the address the memory oracle provides) rather than failing
because of the shutdown. -/
theorem gc_init_idempotent_alloc_recovers (N : Nat) (hN : 1 ≤ N)
    (s : GCState) (malloc : Nat → Option Nat) (size : Nat) (a : Nat)
    (hm : malloc size = some a) :
    gcInitIter N s = gcInitIter 1 s ∧
    (∀ t : GCState, (fax_gc_init t).1 = 1) ∧
    (fax_gc_alloc malloc size (fax_gc_shutdown s)).2.gc_initialized = true ∧
    (fax_gc_alloc malloc size (fax_gc_shutdown s)).1 = some a := by
  obtain ⟨m, rfl⟩ : ∃ m, N = m + 1 := ⟨N - 1, (Nat.succ_pred_eq_of_pos hN).symm⟩
  refine ⟨?_, ?_, ?_, ?_⟩
  · rw [gcInitIter_succ m s, gcInitIter_succ 0 s]
  · intro t
    cases t with
    | mk flag => cases flag <;> rfl
  · simp [fax_gc_alloc, fax_gc_shutdown, fax_gc_init]
  · simpa [fax_gc_alloc] using hm

/-- C6 witness: two `fax_gc_init` calls from the uninitialized state equal
one call, and with a memory oracle returning address 4096 for size 8,
`fax_gc_alloc` right after `fax_gc_shutdown` re-initializes and returns
that address. -/
theorem gc_init_idempotent_alloc_recovers_witness :
    (1 ≤ 2 ∧ (fun _ : Nat => some 4096) 8 = some 4096) ∧
    (gcInitIter 2 initialGCState = gcInitIter 1 initialGCState ∧
     (∀ t : GCState, (fax_gc_init t).1 = 1) ∧
     (fax_gc_alloc (fun _ : Nat => some 4096) 8
        (fax_gc_shutdown initialGCState)).2.gc_initialized = true ∧
     (fax_gc_alloc (fun _ : Nat => some 4096) 8
        (fax_gc_shutdown initialGCState)).1 = some 4096) :=
  ⟨⟨by decide, rfl⟩,
   gc_init_idempotent_alloc_recovers 2 (by decide) initialGCState
     (fun _ : Nat => some 4096) 8 4096 rfl⟩

end Fax.GC
